import Mathlib

set_option maxRecDepth 100000

/-!
Shallow embedding of the AlphaFold FUSE filesystem (`alphafold_fuse.py`) and
the relevant part of the indexer (`src/alphafoldfuse/db_builder.py`).

Modelling conventions:
* Byte strings are `List Nat`; archives are a map from relative path to bytes.
* gzip decompression is an opaque parameter `gunzip : List Nat → List Nat`
  (the code calls the external `gzip.decompress`).
* SQLite rows are Lean structures; queries are list comprehensions mirroring
  the SQL text.  Text parameters compared against the INTEGER `version`
  column are coerced numerically (SQLite numeric affinity), modelled by
  `sqlNat`; the digit strings produced by the resolver make this exact.
* `SELECT max(version)` with no GROUP BY always yields one row; when the
  WHERE clause matches nothing that row is all-NULL (and `sqlite3.Row` is
  truthy, so the code's `if not data` test does not fire).  When rows match,
  SQLite's bare columns come from the row achieving the max.  Both behaviours
  are reproduced here (`maxByVersion`, `UInfo`).
* Python string comparison (`>` on `str`) is code-point lexicographic,
  modelled by `pyListLt`/`pyStrLt` on `String.data`.
* The in-process caches (`functools.lru_cache`) are modelled transparently:
  reads are the uncached functions.  The cache key equality itself
  (`LocationAwareStat.__eq__`/`__hash__`) is modelled by `statEq`/`statHash`.
* `self.versions` is the list loaded at mount time from the `versions`
  table, held abstractly as the list of strings that the resolver compares
  path components against and yields as root directory entries.
-/

/-- One row of the `files` table:
`(relpath, version, uniprot_id, offset, size, expanded_size, modification_time)`. -/
structure FileRow where
  relpath : String
  version : Nat
  uniprot_id : String
  offset : Nat
  size : Nat
  expanded_size : Nat
  modification_time : Nat
deriving DecidableEq, Repr

/-- The `LocationAwareStat` dataclass of `alphafold_fuse.py`.  Optional fields
are `Option`: `none` is Python `None` (as produced by the all-NULL aggregate
row).  The `st_uid`/`st_gid` fields (process uid/gid) are omitted as
environment constants. -/
structure LocationAwareStat where
  st_mode : Nat
  st_nlink : Nat
  st_size : Option Nat
  st_mtime : Option Nat
  st_ctime : Option Nat
  tar_size : Option Nat
  relpath : Option String
  offset : Option Nat
  uniprot_id : Option String
  version : Option Nat
deriving DecidableEq, Repr

/-- `LocationAwareStat(st_mode=stat.S_IFDIR | 0o555)`: directory stat,
`st_nlink` becomes 2, size and times default to 0. -/
def dirStat : LocationAwareStat :=
  { st_mode := 16749, st_nlink := 2, st_size := some 0, st_mtime := some 0,
    st_ctime := some 0, tar_size := none, relpath := none, offset := none,
    uniprot_id := none, version := none }

/-- Stat built by `get_uniprot_info` from the `files` row achieving the max
version: `LocationAwareStat(st_size=expanded_size, tar_size=size, relpath=…,
offset=…, uniprot_id=…, modification_time=…, version=…)`.  File mode is
`S_IFREG | 0o444`. -/
def mkFileStat (row : FileRow) (uid : String) : LocationAwareStat :=
  { st_mode := 33060, st_nlink := 1, st_size := some row.expanded_size,
    st_mtime := some row.modification_time, st_ctime := some row.modification_time,
    tar_size := some row.size, relpath := some row.relpath,
    offset := some row.offset, uniprot_id := some uid,
    version := some row.version }

/-- Stat built by `get_uniprot_info` from the all-NULL aggregate row (query
matched no `files` row): every location field is `None`, but `uniprot_id`
is the parsed identifier and the mode is still a regular file's. -/
def nullStat (uid : String) : LocationAwareStat :=
  { st_mode := 33060, st_nlink := 1, st_size := none, st_mtime := none,
    st_ctime := none, tar_size := none, relpath := none, offset := none,
    uniprot_id := some uid, version := none }

/-- Stat for the `README.md` passthrough:
`LocationAwareStat(st_size=len(readme.read()))`. -/
def readmeStat (n : Nat) : LocationAwareStat :=
  { st_mode := 33060, st_nlink := 1, st_size := some n, st_mtime := some 0,
    st_ctime := some 0, tar_size := none, relpath := none, offset := none,
    uniprot_id := none, version := none }

/-- `LocationAwareStat.__eq__`: `self.uniprot_id == other.uniprot_id`. -/
def statEq (a b : LocationAwareStat) : Bool :=
  a.uniprot_id == b.uniprot_id

/-- `LocationAwareStat.__hash__`: `hash(self.uniprot_id)`, for an ambient
string hash `h`. -/
def statHash (h : Option String → Nat) (a : LocationAwareStat) : Nat :=
  h a.uniprot_id

/-- `_send_from_buffer(buffer, size, offset)` from `alphafold_fuse.py`. -/
def sendFromBuffer (buffer : List Nat) (size offset : Nat) : List Nat :=
  let slen := buffer.length
  if offset < slen then
    let size' := if offset + size > slen then slen - offset else size
    (buffer.drop offset).take size'
  else []

/-- Python code-point lexicographic comparison on character lists. -/
def pyListLt : List Char → List Char → Bool
  | [], [] => false
  | [], _ :: _ => true
  | _ :: _, [] => false
  | a :: as, b :: bs => if a < b then true else if b < a then false else pyListLt as bs

/-- Python `str.__lt__` (lexicographic by code point). -/
def pyStrLt (a b : String) : Bool :=
  pyListLt a.data b.data

/-- SQLite `substr(s, -y, z)` for positive `y`, `z`: the substring starts `y`
characters from the right (clipped at the string start, shortening the
result, as SQLite does). -/
def sqlSubstrNeg (s : String) (y z : Nat) : String :=
  let n := s.data.length
  if y ≤ n then String.mk ((s.data.drop (n - y)).take z)
  else String.mk (s.data.take (z - (y - n)))

/-- `SELECT DISTINCT` dedup, keeping first occurrences. -/
def dedup (l : List String) : List String :=
  l.foldl (fun acc x => if acc.contains x then acc else acc ++ [x]) []

/-- Maximum of a list of naturals (0 on empty), for `MAX(version)`. -/
def listMaxNat : List Nat → Nat
  | [] => 0
  | a :: as => Nat.max a (listMaxNat as)

/-- `MAX(p.2)` over the pairs whose key equals `k`. -/
def maxValsFor (rows : List (String × Nat)) (k : String) : Nat :=
  listMaxNat ((rows.filter (fun p => p.1 == k)).map Prod.snd)

/-- `GROUP BY key` with `MAX(version)`: one pair per distinct key. -/
def groupMaxVersion (rows : List (String × Nat)) : List (String × Nat) :=
  (dedup (rows.map Prod.fst)).map (fun k => (k, maxValsFor rows k))

/-- Row of the `files` table achieving the maximal `version` (SQLite serves
the bare columns of a `max()` query from that row). -/
def maxByVersion : List FileRow → Option FileRow
  | [] => none
  | r :: rs =>
    match maxByVersion rs with
    | none => some r
    | some m => if r.version < m.version then some m else some r

/-- Does `pat` occur as a prefix of `l`? -/
def listIsPrefixOf : List Char → List Char → Bool
  | [], _ => true
  | _ :: _, [] => false
  | p :: ps, a :: as => p == a && listIsPrefixOf ps as

/-- Worker for `pyRemoveSub` for the nonempty pattern `p :: ps`.  The first
argument counts characters of an already-matched occurrence still to be
consumed. -/
def pyRemoveSubGo (p : Char) (ps : List Char) : Nat → List Char → List Char
  | _, [] => []
  | skip + 1, _ :: as => pyRemoveSubGo p ps skip as
  | 0, a :: as =>
    if listIsPrefixOf (p :: ps) (a :: as) then pyRemoveSubGo p ps ps.length as
    else a :: pyRemoveSubGo p ps 0 as

/-- Python `s.replace(pat, '')`: remove every (non-overlapping, leftmost)
occurrence of `pat`. -/
def pyRemoveSub (pat l : List Char) : List Char :=
  match pat with
  | [] => l
  | p :: ps => pyRemoveSubGo p ps 0 l

/-- Python `s.split(sep)` for a single-character separator (no collapsing;
`''.split(sep) == ['']`). -/
def pySplitChar (sep : Char) : List Char → List (List Char)
  | [] => [[]]
  | a :: as =>
    let r := pySplitChar sep as
    if a == sep then [] :: r
    else
      match r with
      | [] => [[a]]
      | g :: gs => (a :: g) :: gs

/-- Python `s.upper()` (ASCII identifiers only). -/
def pyUpper (s : String) : String :=
  String.mk (s.data.map Char.toUpper)

/-- Numeric value of a digit-character list. -/
def digitsVal (l : List Char) : Nat :=
  l.foldl (fun acc c => acc * 10 + (c.toNat - 48)) 0

/-- SQLite numeric-affinity coercion of a digit string compared against an
INTEGER column (non-digit strings, never produced by the resolver for the
version parameters, coerce to 0 here). -/
def sqlNat (s : String) : Nat :=
  if !s.data.isEmpty && s.data.all Char.isDigit then digitsVal s.data else 0

/-- Result of `SQLReader.get_uniprot_info`: either the literal `-2`
(`errno.ENOENT` sentinel) or a `LocationAwareStat`. -/
inductive UInfo where
  | err2
  | info (s : LocationAwareStat)
deriving DecidableEq, Repr

/-- `SQLReader.get_uniprot_info(uniprot_id, max_version)`.  Strips `.cif`,
parses an optional `_v<digits>` suffix, rejects early when the suffix
compares greater than `max_version` as a Python *string*, then runs
`SELECT …, max(version) FROM files WHERE uniprot_id = ? [AND version = ?]
[AND version <= ?]` and builds a stat from the (possibly all-NULL) row. -/
def getUniprotInfo (files : List FileRow) (uniprot_id : String)
    (max_version : String) : UInfo :=
  let c1 : List Char := pyRemoveSub ".cif".data uniprot_id.data
  let parts := pySplitChar '_' c1
  let vsuffix : Option String :=
    if c1.contains '_' then
      some (String.mk ((parts.getD 1 []).filter (fun c => c != 'v')))
    else none
  let uid : String := String.mk (parts.getD 0 [])
  let query : UInfo :=
    let hits := files.filter (fun r =>
      r.uniprot_id == uid
      && (match vsuffix with
          | some vs => if vs ≠ "" then r.version == sqlNat vs else true
          | none => true)
      && (if max_version ≠ "" then decide (r.version ≤ sqlNat max_version) else true))
    match maxByVersion hits with
    | none => .info (nullStat uid)
    | some row => .info (mkFileStat row uid)
  match vsuffix with
  | some vs => if pyStrLt max_version vs then .err2 else query
  | none => query

/-- `SQLReader.get_valid_pdb_dirnames_l2(level_1, version)`:
`SELECT DISTINCT(substr(pdb_id,-2,1)) FROM pdb LEFT JOIN files f ON
pdb.uniprot_id = f.uniprot_id WHERE substr(pdb_id,-3,1) = upper(level_1)
AND version <= ?`.  `pdb` rows are `(uniprot_id, pdb_id)` pairs. -/
def getValidPdbDirnamesL2 (pdb : List (String × String)) (files : List FileRow)
    (level1 : String) (version : String) : List String :=
  dedup ((pdb.filter (fun p => sqlSubstrNeg p.2 3 1 == pyUpper level1)).flatMap
    (fun p => (files.filter (fun f =>
        f.uniprot_id == p.1 && decide (f.version ≤ sqlNat version))).map
      (fun _ => sqlSubstrNeg p.2 2 1)))

/-- `SQLReader.get_pdb_from_pdb_substring(pdb_substring, version)`:
`SELECT DISTINCT(pdb_id) FROM pdb INNER JOIN files f ON … WHERE
substr(pdb.pdb_id,-3,2) = upper(?) AND f.version <= ?`. -/
def getPdbFromPdbSubstring (pdb : List (String × String)) (files : List FileRow)
    (sub : String) (version : String) : List String :=
  dedup ((pdb.filter (fun p => sqlSubstrNeg p.2 3 2 == pyUpper sub)).flatMap
    (fun p => (files.filter (fun f =>
        f.uniprot_id == p.1 && decide (f.version ≤ sqlNat version))).map
      (fun _ => p.2)))

/-- `SQLReader.get_uniprot_from_uniprot_substring(uniprot_substring, version)`:
`SELECT uniprot_id, MAX(version) FROM files WHERE substr(uniprot_id,-3,2) = ?
AND version <= ? GROUP BY uniprot_id` (case-sensitive, no upper()). -/
def getUniprotFromUniprotSubstring (files : List FileRow) (sub : String)
    (version : String) : List (String × Nat) :=
  groupMaxVersion ((files.filter (fun f =>
      sqlSubstrNeg f.uniprot_id 3 2 == sub && decide (f.version ≤ sqlNat version))).map
    (fun f => (f.uniprot_id, f.version)))

/-- `SQLReader.get_taxonomy_from_taxonomy_substring(taxonomy_substring, version)`:
`SELECT DISTINCT(taxonomy_id) FROM taxonomy LEFT JOIN files f ON … WHERE
substr(taxonomy_id,-3,2) = ? AND f.version <= ?`.  `taxonomy` rows are
`(uniprot_id, taxonomy_id)` pairs. -/
def getTaxonomyFromTaxonomySubstring (taxonomy : List (String × String))
    (files : List FileRow) (sub : String) (version : String) : List String :=
  dedup ((taxonomy.filter (fun t => sqlSubstrNeg t.2 3 2 == sub)).flatMap
    (fun t => (files.filter (fun f =>
        f.uniprot_id == t.1 && decide (f.version ≤ sqlNat version))).map
      (fun _ => t.2)))

/-- `SQLReader.get_uniprot_from_taxonomy(taxonomy, version)`:
`SELECT taxonomy.uniprot_id, MAX(files.version) FROM taxonomy LEFT JOIN files
ON … WHERE taxonomy_id = ? AND files.version <= ? GROUP BY
taxonomy.uniprot_id`. -/
def getUniprotFromTaxonomy (taxonomy : List (String × String))
    (files : List FileRow) (tid : String) (version : String) : List (String × Nat) :=
  groupMaxVersion ((taxonomy.filter (fun t => t.2 == tid)).flatMap
    (fun t => (files.filter (fun f =>
        f.uniprot_id == t.1 && decide (f.version ≤ sqlNat version))).map
      (fun f => (t.1, f.version))))

/-- `SQLReader.get_uniprot_from_pdb(pdb, version)`:
`SELECT pdb.uniprot_id, MAX(files.version) FROM pdb LEFT JOIN files ON …
WHERE pdb.pdb_id = upper(?) AND files.version <= ? GROUP BY pdb.uniprot_id`. -/
def getUniprotFromPdb (pdb : List (String × String)) (files : List FileRow)
    (pid : String) (version : String) : List (String × Nat) :=
  groupMaxVersion ((pdb.filter (fun p => p.2 == pyUpper pid)).flatMap
    (fun p => (files.filter (fun f =>
        f.uniprot_id == p.1 && decide (f.version ≤ sqlNat version))).map
      (fun f => (p.1, f.version))))

/-- `dirent_gen_from_result`: each `(uniprot_id, version)` row is rendered as
the entry `<UNIPROT_ID>_v<V>.cif`. -/
def direntGenFromResult (rows : List (String × Nat)) : List String :=
  rows.map (fun r => r.1 ++ "_v" ++ toString r.2 ++ ".cif")

/-- The three actions `_fake_filesystem` dispatches on. -/
inductive FSAction where
  | getattr
  | readdir
  | read
deriving DecidableEq, Repr

/-- Everything `_fake_filesystem` can produce: a stat, the `-2` sentinel, a
directory-entry generator, bytes, Python's implicit `None` (branches that
fall off the end of the function), or an uncaught exception. -/
inductive FSResult where
  | stat (s : LocationAwareStat)
  | err2
  | entries (es : List String)
  | bytes (bs : List Nat)
  | retNone
  | raised
deriving DecidableEq, Repr

/-- Serving-time state: the mount-time `versions` list, the three index
tables, the local `README.md` bytes, the archive store rooted at
`alphafold_dir`, and the external gzip decompressor. -/
structure Env where
  versions : List String
  files : List FileRow
  taxonomy : List (String × String)
  pdb : List (String × String)
  readme : List Nat
  archives : String → List Nat
  gunzip : List Nat → List Nat

/-- `AlphaFoldFS._read_uniprot_contents(stat_info)`: open the archive at
`relpath`, `seek(offset + 512)`, `read(tar_size)` and gzip-decompress.
`none` when a location field is `None` (the call would raise). -/
def readStatContents (env : Env) (st : LocationAwareStat) : Option (List Nat) :=
  match st.relpath, st.offset, st.tar_size with
  | some rp, some off, some ts =>
    some (env.gunzip (((env.archives rp).drop (off + 512)).take ts))
  | _, _, _ => none

/-- A `get_uniprot_info` result returned directly from `getattr`. -/
def uinfoGetattr : UInfo → FSResult
  | .err2 => .err2
  | .info s => .stat s

/-- `_send_from_buffer(self._read_uniprot_contents(stat_info), size, offset)`:
raises when `stat_info` is `-2` (attribute access on an int) or the all-NULL
stat (`os.path.join` on `None`). -/
def uinfoRead (env : Env) (ui : UInfo) (size offset : Nat) : FSResult :=
  match ui with
  | .err2 => .raised
  | .info s =>
    match readStatContents env s with
    | some buf => .bytes (sendFromBuffer buf size offset)
    | none => .raised

/-- `get_alphanum()`: `A`–`Z` then `0`–`9`. -/
def alphanumEntries : List String :=
  (List.range 26).map (fun i => String.mk [Char.ofNat (65 + i)])
    ++ (List.range 10).map (fun i => String.mk [Char.ofNat (48 + i)])

/-- `get_numeric()`: `1`–`9`. -/
def numericEntries : List String :=
  (List.range 9).map (fun i => String.mk [Char.ofNat (49 + i)])

/-- The `path_config` dict; `none` is a `KeyError`. -/
def pathConfig : String → Option (List String)
  | "pdb" => some alphanumEntries
  | "uniprot" => some alphanumEntries
  | "taxonomy" => some numericEntries
  | _ => none

/-- `AlphaFoldFS._fake_filesystem(path, action, size, offset)` on the already
split component list `pc = path.split('/')[1:]`, translated branch by branch
(comments give the source's shape). -/
def fakeFilesystemPC (env : Env) (pc : List String) (act : FSAction)
    (size offset : Nat) : FSResult :=
  match pc with
  | [] => .raised
  | pc0 :: pcrest =>
    if pc0 = "" ∧ act = .getattr then .stat dirStat
    else if pc0 = "" ∧ act = .readdir then .entries (env.versions ++ ["README.md"])
    else if ¬ (env.versions ++ ["README.md"]).contains pc0 then .err2
    else if pc0 = "README.md" ∧ act = .getattr then .stat (readmeStat env.readme.length)
    else if pc0 = "README.md" ∧ act = .read then .bytes (sendFromBuffer env.readme size offset)
    else if pcrest = [] ∧ act = .getattr then .stat dirStat
    else if pcrest = [] ∧ act = .readdir then .entries ["pdb", "uniprot", "taxonomy"]
    else
      let version : String := String.mk (pc0.data.filter (fun c => c != 'v'))
      match pcrest with
      | [] => .err2
      | [p0] =>
        match act with
        | .getattr => .stat dirStat
        | .readdir =>
          match pathConfig p0 with
          | some es => .entries es
          | none => .err2
        | .read => .retNone
      | [p0, p1] =>
        if p1.length = 1 then
          match act with
          | .getattr => .stat dirStat
          | .readdir =>
            if p0 = "pdb" then .entries (getValidPdbDirnamesL2 env.pdb env.files p1 version)
            else
              match pathConfig p0 with
              | some es => .entries es
              | none => .raised
          | .read => .retNone
        else if p0 = "uniprot" then
          let si := getUniprotInfo env.files p1 version
          match act with
          | .getattr => uinfoGetattr si
          | .read => uinfoRead env si size offset
          | .readdir => .retNone
        else if p0 = "taxonomy" then
          match act with
          | .readdir =>
            .entries (direntGenFromResult (getUniprotFromTaxonomy env.taxonomy env.files p1 version))
          | .getattr => .stat dirStat
          | .read => .retNone
        else if p0 = "pdb" then
          match act with
          | .readdir =>
            .entries (direntGenFromResult (getUniprotFromPdb env.pdb env.files p1 version))
          | .getattr => .stat dirStat
          | .read => .retNone
        else .retNone
      | [p0, p1, p2] =>
        if p1.length = 1 ∧ act = .getattr then .stat dirStat
        else if p1.length = 1 ∧ act = .readdir ∧ p0 = "taxonomy" then
          .entries (getTaxonomyFromTaxonomySubstring env.taxonomy env.files (p1 ++ p2) version)
        else if p1.length = 1 ∧ act = .readdir ∧ p0 = "uniprot" then
          .entries (direntGenFromResult (getUniprotFromUniprotSubstring env.files (p1 ++ p2) version))
        else if p1.length = 1 ∧ act = .readdir ∧ p0 = "pdb" then
          .entries (getPdbFromPdbSubstring env.pdb env.files (p1 ++ p2) version)
        else if p0 = "taxonomy" then
          let si := getUniprotInfo env.files p2 version
          match act with
          | .read => uinfoRead env si size offset
          | .getattr => uinfoGetattr si
          | .readdir => .retNone
        else .retNone
      | [p0, _, _, p3] =>
        if p0 = "uniprot" then
          let si := getUniprotInfo env.files p3 version
          match act with
          | .getattr => uinfoGetattr si
          | .read => uinfoRead env si size offset
          | .readdir => .retNone
        else if act = .getattr then .stat dirStat
        else if act = .readdir ∧ p0 = "taxonomy" then
          .entries (direntGenFromResult (getUniprotFromTaxonomy env.taxonomy env.files p3 version))
        else if act = .readdir ∧ p0 = "pdb" then
          .entries (direntGenFromResult (getUniprotFromPdb env.pdb env.files p3 version))
        else .retNone
      | [_, _, _, _, p4] =>
        let si := getUniprotInfo env.files p4 version
        match act with
        | .getattr => uinfoGetattr si
        | .read => uinfoRead env si size offset
        | .readdir => .retNone
      | _ => .err2

/-- `_fake_filesystem` on a path string: `pc = path.split('/')[1:]`. -/
def fakeFilesystem (env : Env) (path : String) (act : FSAction)
    (size offset : Nat) : FSResult :=
  fakeFilesystemPC env (((pySplitChar '/' path.data).map String.mk).drop 1) act size offset

/-- `AlphaFoldFS.open(path, flags)`: the access mode is `flags & (O_RDONLY |
O_WRONLY | O_RDWR)` = `flags & 3`; any non-read-only mode returns
`-errno.EACCES` (= `-13`), otherwise the method returns `None` (success).
The path is never inspected. -/
def afOpen (path : String) (flags : Nat) : Option Int :=
  if Nat.land flags 3 ≠ 0 then some (-13) else none

/-- The single `files` row of the specification's literal scenario
(`S = 40`, `E = 90`, `T = 777` chosen concretely). -/
def scenarioRow : FileRow :=
  { relpath := "v3/proteome-tax_id-9606-0_v3.tar", version := 3,
    uniprot_id := "A0A1Q1MKJ4", offset := 0, size := 40, expanded_size := 90,
    modification_time := 777 }

/-- The specification's literal scenario index: one `files` row plus the
`pdb {A0A1Q1MKJ4, 2DOG}` and `taxonomy {A0A1Q1MKJ4, 9606}` cross-references. -/
def scenarioEnv : Env :=
  { versions := ["v3"], files := [scenarioRow],
    taxonomy := [("A0A1Q1MKJ4", "9606")], pdb := [("A0A1Q1MKJ4", "2DOG")],
    readme := [65, 66, 67],
    archives := fun r => if r = "v3/proteome-tax_id-9606-0_v3.tar" then List.range 600 else [],
    gunzip := fun l => l ++ l }

/-- A small concrete row for exercising the read path: 4 compressed bytes at
archive offset 512, decompressing (under `testEnv`'s gunzip) to 8 bytes. -/
def testRow : FileRow :=
  { relpath := "t.tar", version := 3, uniprot_id := "AAAB", offset := 0,
    size := 4, expanded_size := 8, modification_time := 7 }

/-- Concrete environment for the read-path theorems: the archive `t.tar` has
bytes `0, …, 519` (as `List.range`), so the member payload is
`[512, 513, 514, 515]` and the decoded buffer `[512, 513, 514, 515, 512,
513, 514, 515]`. -/
def testEnv : Env :=
  { versions := ["v3"], files := [testRow], taxonomy := [], pdb := [],
    readme := [], archives := fun r => if r = "t.tar" then List.range 520 else [],
    gunzip := fun l => l ++ l }

/-- Little-endian 32-bit value of a four-byte list (`struct.unpack('<I', …)`). -/
def leU32 : List Nat → Nat
  | [b0, b1, b2, b3] => b0 + 256 * b1 + 65536 * b2 + 16777216 * b3
  | _ => 0

/-- Per-member `expanded_size` computation of `get_files_from_tar`
(`src/alphafoldfuse/db_builder.py`): members with compressed
`size > 4194304` are decompressed and measured
(`len(gzip.decompress(raw.read(size)))` after `seek(offset + 512)`); smaller
ones read the 4 bytes at `(offset + 512) + (size - 4)` (the gzip ISIZE
trailer) and decode them little-endian. -/
def memberExpandedSize (gunzip : List Nat → List Nat) (archive : List Nat)
    (offset size : Nat) : Nat :=
  if size > 4194304 then
    (gunzip ((archive.drop (offset + 512)).take size)).length
  else
    leU32 ((archive.drop (offset + 512 + (size - 4))).take 4)

/-- The decoded buffer `_read_uniprot_contents` produces for a resolved
location: seek to `offset + 512` in the archive at `relpath`, read exactly
`tar_size` bytes, gzip-decompress. -/
def decodedBuffer (env : Env) (rp : String) (off ts : Nat) : List Nat :=
  env.gunzip (((env.archives rp).drop (off + 512)).take ts)

/-- Stat for protein `P12345` as served below `/v3/`. -/
def statV3 : LocationAwareStat :=
  mkFileStat ⟨"v3/a.tar", 3, "P12345", 0, 4, 8, 7⟩ "P12345"

/-- Stat for the same protein `P12345` at dataset version 4. -/
def statV4 : LocationAwareStat :=
  mkFileStat ⟨"v4/a.tar", 4, "P12345", 512, 5, 9, 8⟩ "P12345"

example : sendFromBuffer [1, 2, 3, 4] 2 1 = [2, 3] := by decide
example : sendFromBuffer [1, 2, 3, 4] 10 2 = [3, 4] := by decide
example : sendFromBuffer [1, 2, 3, 4] 2 9 = [] := by decide
example : pyStrLt "10" "9" = true := by decide
example : pyStrLt "3" "99" = true := by decide
example : pyStrLt "3" "2" = false := by decide
example : sqlSubstrNeg "A0A1Q1MKJ4" 3 2 = "KJ" := by decide
example : sqlSubstrNeg "2DOG" 3 1 = "D" := by decide
example : sqlSubstrNeg "2DOG" 2 1 = "O" := by decide
example : sqlSubstrNeg "AB" 3 2 = "A" := by decide
example : sqlSubstrNeg "AB" 3 1 = "" := by decide
example : sqlSubstrNeg "A" 3 2 = "" := by decide
example : pyRemoveSub ".cif".data "A0A1Q1MKJ4_v99.cif".data = "A0A1Q1MKJ4_v99".data := by decide
example : pySplitChar '_' "A0A1Q1MKJ4_v99".data = ["A0A1Q1MKJ4".data, "v99".data] := by decide
example : pyUpper "2dog" = "2DOG" := by decide
example : digitsVal "99".data = 99 := by decide
example :
    getUniprotInfo [⟨"v3/a.tar", 3, "A0A1Q1MKJ4", 0, 40, 90, 777⟩]
      "A0A1Q1MKJ4_v99.cif" "3" = .err2 := by decide
example :
    getUniprotInfo [⟨"v3/a.tar", 3, "A0A1Q1MKJ4", 0, 40, 90, 777⟩]
      "A0A1Q1MKJ4_v2.cif" "3" = .info (nullStat "A0A1Q1MKJ4") := by decide
example :
    getUniprotInfo [⟨"v3/a.tar", 3, "A0A1Q1MKJ4", 0, 40, 90, 777⟩]
      "A0A1Q1MKJ4" "3"
      = .info (mkFileStat ⟨"v3/a.tar", 3, "A0A1Q1MKJ4", 0, 40, 90, 777⟩ "A0A1Q1MKJ4") := by
  decide
example :
    getUniprotInfo [⟨"v3/a.tar", 3, "A0A1Q1MKJ4", 0, 40, 90, 777⟩]
      "QQQQQQ" "3" = .info (nullStat "QQQQQQ") := by decide
example :
    getUniprotFromTaxonomy [("A0A1Q1MKJ4", "9606")]
      [⟨"v3/a.tar", 3, "A0A1Q1MKJ4", 0, 40, 90, 777⟩] "9606" "3"
      = [("A0A1Q1MKJ4", 3)] := by decide
example :
    direntGenFromResult [("A0A1Q1MKJ4", 3)] = ["A0A1Q1MKJ4_v3.cif"] := by decide
example :
    fakeFilesystem scenarioEnv "/" .readdir 0 0 = .entries ["v3", "README.md"] := by decide
example :
    fakeFilesystem scenarioEnv "/v3" .readdir 0 0 = .entries ["pdb", "uniprot", "taxonomy"] := by
  decide
example :
    fakeFilesystem scenarioEnv "/v3/taxonomy/9606" .readdir 0 0
      = .entries ["A0A1Q1MKJ4_v3.cif"] := by decide
example :
    fakeFilesystem scenarioEnv "/v3/pdb/2DOG" .readdir 0 0
      = .entries ["A0A1Q1MKJ4_v3.cif"] := by decide
example :
    fakeFilesystem scenarioEnv "/v3/pdb/2DOG/A0A1Q1MKJ4_v3.cif" .getattr 0 0 = .retNone := by
  decide
example :
    fakeFilesystem scenarioEnv "/v3/uniprot/A0A1Q1MKJ4_v99.cif" .getattr 0 0 = .err2 := by decide
example :
    fakeFilesystem scenarioEnv "/v3/uniprot/A0A1Q1MKJ4" .getattr 0 0
      = .stat (mkFileStat scenarioRow "A0A1Q1MKJ4") := by decide
example :
    fakeFilesystem testEnv "/v3/uniprot/AAAB" .read 4 6 = .bytes [514, 515] := by decide

theorem sendFromBuffer_eq_slice (l : List Nat) (s o : Nat) :
    sendFromBuffer l s o = (l.drop o).take s := by
  unfold sendFromBuffer
  by_cases h : o < l.length
  · rw [if_pos h]
    by_cases h2 : o + s > l.length
    · rw [if_pos h2]
      rw [List.take_of_length_le (by rw [List.length_drop]), List.take_of_length_le]
      rw [List.length_drop]; omega
    · rw [if_neg h2]
  · rw [if_neg h, List.drop_eq_nil_of_le (by omega), List.take_nil]

theorem slices_concat (l : List Nat) (o1 o2 e : Nat) (h1 : o1 ≤ o2) (h2 : o2 ≤ e) :
    (l.drop o1).take (o2 - o1) ++ (l.drop o2).take (e - o2) = (l.take e).drop o1 := by
  rw [List.drop_take]
  have hd : l.drop o2 = (l.drop o1).drop (o2 - o1) := by
    rw [List.drop_drop]; congr 1; omega
  rw [hd]
  have := List.take_add (l := l.drop o1) (m := o2 - o1) (n := e - o2)
  rw [← this]; congr 1; omega

theorem listMaxNat_mem : ∀ (l : List Nat), l ≠ [] → listMaxNat l ∈ l
  | [a], _ => by
    simp [listMaxNat]
  | a :: b :: t, _ => by
    have ih := listMaxNat_mem (b :: t) (by simp)
    show Nat.max a (listMaxNat (b :: t)) ∈ a :: b :: t
    rcases Nat.le_total a (listMaxNat (b :: t)) with h | h
    · have hm : Nat.max a (listMaxNat (b :: t)) = listMaxNat (b :: t) := Nat.max_eq_right h
      rw [hm]; exact List.mem_cons_of_mem _ ih
    · have hm : Nat.max a (listMaxNat (b :: t)) = a := Nat.max_eq_left h
      rw [hm]; exact List.mem_cons_self _ _

theorem dedup_subset (l : List String) : ∀ x ∈ dedup l, x ∈ l := by
  suffices h : ∀ (l : List String) (acc : List String) (x : String),
      x ∈ l.foldl (fun acc x => if acc.contains x then acc else acc ++ [x]) acc →
      x ∈ acc ∨ x ∈ l by
    intro x hx
    rcases h l [] x hx with h' | h'
    · simp at h'
    · exact h'
  intro l
  induction l with
  | nil => intro acc x hx; exact Or.inl hx
  | cons a t ih =>
    intro acc x hx
    rcases ih _ x hx with h' | h'
    · have h'' : x ∈ (if acc.contains a then acc else acc ++ [a]) := h'
      by_cases hc : acc.contains a
      · rw [if_pos hc] at h''; exact Or.inl h''
      · rw [if_neg hc] at h''
        rcases List.mem_append.mp h'' with h3 | h3
        · exact Or.inl h3
        · simp at h3; subst h3; exact Or.inr (List.mem_cons_self _ _)
    · exact Or.inr (List.mem_cons_of_mem _ h')

theorem groupMaxVersion_subset (rows : List (String × Nat)) :
    ∀ q ∈ groupMaxVersion rows, q ∈ rows := by
  intro q hq
  unfold groupMaxVersion at hq
  rcases List.mem_map.mp hq with ⟨k, hk, rfl⟩
  have hk' : k ∈ rows.map Prod.fst := dedup_subset _ _ hk
  rcases List.mem_map.mp hk' with ⟨p, hp, rfl⟩
  have hpf : p ∈ rows.filter (fun q => q.1 == p.1) :=
    List.mem_filter.mpr ⟨hp, by simp⟩
  have hne : (rows.filter (fun q => q.1 == p.1)).map Prod.snd ≠ [] := by
    have := List.ne_nil_of_mem hpf
    simpa using this
  have hmax := listMaxNat_mem _ hne
  rw [show listMaxNat ((rows.filter (fun q => q.1 == p.1)).map Prod.snd)
      = maxValsFor rows p.1 from rfl] at hmax
  rcases List.mem_map.mp hmax with ⟨q', hq', hsnd⟩
  have hq'f := List.mem_filter.mp hq'
  have hfst : q'.1 = p.1 := by simpa using hq'f.2
  have hqq : (p.1, maxValsFor rows p.1) = q' := by
    rw [← hsnd, ← hfst]
  rw [hqq]
  exact hq'f.1

theorem resolver_read_uniprot2 (env : Env) (v0 uid : String) (s o : Nat)
    (hv : v0 ∈ env.versions) (hvr : v0 ≠ "README.md") (hlen : uid.length ≠ 1) :
    fakeFilesystemPC env [v0, "uniprot", uid] .read s o
      = uinfoRead env
          (getUniprotInfo env.files uid (String.mk (v0.data.filter (fun c => c != 'v')))) s o := by
  have hmem : ((env.versions ++ ["README.md"]).contains v0) = true :=
    List.elem_eq_true_of_mem (List.mem_append_left _ hv)
  simp [fakeFilesystemPC, hmem, hvr, hlen, hv]

theorem resolver_read_taxonomy3 (env : Env) (v0 t uid : String) (s o : Nat)
    (hv : v0 ∈ env.versions) (hvr : v0 ≠ "README.md") :
    fakeFilesystemPC env [v0, "taxonomy", t, uid] .read s o
      = uinfoRead env
          (getUniprotInfo env.files uid (String.mk (v0.data.filter (fun c => c != 'v')))) s o := by
  have hmem : ((env.versions ++ ["README.md"]).contains v0) = true :=
    List.elem_eq_true_of_mem (List.mem_append_left _ hv)
  simp [fakeFilesystemPC, hmem, hvr, hv]

theorem resolver_read_uniprot4 (env : Env) (v0 a b uid : String) (s o : Nat)
    (hv : v0 ∈ env.versions) (hvr : v0 ≠ "README.md") :
    fakeFilesystemPC env [v0, "uniprot", a, b, uid] .read s o
      = uinfoRead env
          (getUniprotInfo env.files uid (String.mk (v0.data.filter (fun c => c != 'v')))) s o := by
  have hmem : ((env.versions ++ ["README.md"]).contains v0) = true :=
    List.elem_eq_true_of_mem (List.mem_append_left _ hv)
  simp [fakeFilesystemPC, hmem, hvr, hv]

theorem resolver_read_depth5 (env : Env) (v0 x0 a b x3 uid : String) (s o : Nat)
    (hv : v0 ∈ env.versions) (hvr : v0 ≠ "README.md") :
    fakeFilesystemPC env [v0, x0, a, b, x3, uid] .read s o
      = uinfoRead env
          (getUniprotInfo env.files uid (String.mk (v0.data.filter (fun c => c != 'v')))) s o := by
  have hmem : ((env.versions ++ ["README.md"]).contains v0) = true :=
    List.elem_eq_true_of_mem (List.mem_append_left _ hv)
  simp [fakeFilesystemPC, hmem, hvr, hv]

theorem uinfoRead_located (env : Env) (st : LocationAwareStat) (rp : String)
    (off ts s o : Nat) (hrp : st.relpath = some rp) (hoff : st.offset = some off)
    (hts : st.tar_size = some ts) :
    uinfoRead env (.info st) s o
      = .bytes (sendFromBuffer (decodedBuffer env rp off ts) s o) := by
  simp only [uinfoRead, readStatContents, decodedBuffer, hrp, hoff, hts]

/-- C1: for a file path resolving to a files row (a stat with location
fields `relpath = rp`, `offset = off`, `tar_size = ts`), reading `s` bytes
at offset `o` — through each of the resolver's file-path shapes — returns
exactly the slice `[o : o + s]` of the buffer obtained by seeking to
`off + 512` in the archive `rp`, reading exactly `ts` compressed bytes and
gzip-decompressing them; an offset at or past the end of that buffer
returns empty bytes, and an overrunning size is truncated to the buffer's
end. -/
theorem read_returns_requested_slice (env : Env) (v0 t a b x0 x3 uid rp : String)
    (off ts s o : Nat) (st : LocationAwareStat)
    (hv : v0 ∈ env.versions) (hvr : v0 ≠ "README.md") (hlen : uid.length ≠ 1)
    (hres : getUniprotInfo env.files uid (String.mk (v0.data.filter (fun c => c != 'v')))
      = .info st)
    (hrp : st.relpath = some rp) (hoff : st.offset = some off)
    (hts : st.tar_size = some ts) :
    fakeFilesystemPC env [v0, "uniprot", uid] .read s o
        = .bytes (((decodedBuffer env rp off ts).drop o).take s)
    ∧ ((decodedBuffer env rp off ts).length ≤ o →
        fakeFilesystemPC env [v0, "uniprot", uid] .read s o = .bytes [])
    ∧ ((decodedBuffer env rp off ts).length < o + s →
        fakeFilesystemPC env [v0, "uniprot", uid] .read s o
          = .bytes ((decodedBuffer env rp off ts).drop o))
    ∧ fakeFilesystemPC env [v0, "taxonomy", t, uid] .read s o
        = .bytes (((decodedBuffer env rp off ts).drop o).take s)
    ∧ fakeFilesystemPC env [v0, "uniprot", a, b, uid] .read s o
        = .bytes (((decodedBuffer env rp off ts).drop o).take s)
    ∧ fakeFilesystemPC env [v0, x0, a, b, x3, uid] .read s o
        = .bytes (((decodedBuffer env rp off ts).drop o).take s) := by
  have h2 := resolver_read_uniprot2 env v0 uid s o hv hvr hlen
  have h3 := resolver_read_taxonomy3 env v0 t uid s o hv hvr
  have h4 := resolver_read_uniprot4 env v0 a b uid s o hv hvr
  have h5 := resolver_read_depth5 env v0 x0 a b x3 uid s o hv hvr
  rw [hres, uinfoRead_located env st rp off ts s o hrp hoff hts,
    sendFromBuffer_eq_slice] at h2 h3 h4 h5
  refine ⟨h2, ?_, ?_, h3, h4, h5⟩
  · intro hle
    rw [h2, List.drop_eq_nil_of_le hle, List.take_nil]
  · intro hlt
    rw [h2, List.take_of_length_le]
    rw [List.length_drop]; omega

/-- Witness for C1 on `testEnv` (decoded buffer
`[512, 513, 514, 515, 512, 513, 514, 515]`): a mid-buffer read, a past-end
read, an overrunning read, and a taxonomy-shaped path. -/
theorem read_returns_requested_slice_witness :
    fakeFilesystemPC testEnv ["v3", "uniprot", "AAAB"] .read 4 6 = .bytes [514, 515]
    ∧ fakeFilesystemPC testEnv ["v3", "uniprot", "AAAB"] .read 4 10 = .bytes []
    ∧ fakeFilesystemPC testEnv ["v3", "uniprot", "AAAB"] .read 100 6 = .bytes [514, 515]
    ∧ fakeFilesystemPC testEnv ["v3", "taxonomy", "9606", "AAAB"] .read 4 6
        = .bytes [514, 515] := by
  have h1 := read_returns_requested_slice testEnv "v3" "9606" "A" "B" "pdb" "2DOG" "AAAB"
      "t.tar" 0 4 4 6 (mkFileStat testRow "AAAB") (by decide) (by decide) (by decide)
      (by decide) (by decide) (by decide) (by decide)
  have h2 := read_returns_requested_slice testEnv "v3" "9606" "A" "B" "pdb" "2DOG" "AAAB"
      "t.tar" 0 4 4 10 (mkFileStat testRow "AAAB") (by decide) (by decide) (by decide)
      (by decide) (by decide) (by decide) (by decide)
  have h3 := read_returns_requested_slice testEnv "v3" "9606" "A" "B" "pdb" "2DOG" "AAAB"
      "t.tar" 0 4 100 6 (mkFileStat testRow "AAAB") (by decide) (by decide) (by decide)
      (by decide) (by decide) (by decide) (by decide)
  refine ⟨?_, ?_, ?_, ?_⟩
  · rw [h1.1]; decide
  · rw [h2.2.1 (by decide)]
  · rw [h3.2.2.1 (by decide)]; decide
  · rw [h1.2.2.2.1]; decide

/-- C6 counterexample: with `o1 = 1`, `o2 = 2`, `expanded_size = 8` on
`testEnv`, `read(p, o2 − o1, o1) ++ read(p, E − o2, o2)` is the 7-byte
suffix of the buffer from offset 1, not the full decompressed member
truncated to `expanded_size` as the claim states. -/
theorem read_concat_counterexample :
    fakeFilesystemPC testEnv ["v3", "uniprot", "AAAB"] .read 1 1 = .bytes [513]
    ∧ fakeFilesystemPC testEnv ["v3", "uniprot", "AAAB"] .read 6 2
        = .bytes [514, 515, 512, 513, 514, 515]
    ∧ [513] ++ [514, 515, 512, 513, 514, 515]
        ≠ (decodedBuffer testEnv "t.tar" 0 4).take 8 := by
  decide

/-- C6 amended: for `o1 < o2 ≤ expanded_size`,
`read(p, o2 − o1, o1) ++ read(p, expanded_size − o2, o2)` equals the full
decompressed member truncated to `expanded_size` with its first `o1` bytes
dropped (for `o1 = 0` this is the claim's original equality). -/
theorem read_concat_amended (env : Env) (v0 uid rp : String)
    (off ts E o1 o2 : Nat) (st : LocationAwareStat)
    (hv : v0 ∈ env.versions) (hvr : v0 ≠ "README.md") (hlen : uid.length ≠ 1)
    (hres : getUniprotInfo env.files uid (String.mk (v0.data.filter (fun c => c != 'v')))
      = .info st)
    (hrp : st.relpath = some rp) (hoff : st.offset = some off)
    (hts : st.tar_size = some ts) (hE : st.st_size = some E)
    (h12 : o1 < o2) (h2E : o2 ≤ E) :
    ∃ l1 l2,
      fakeFilesystemPC env [v0, "uniprot", uid] .read (o2 - o1) o1 = .bytes l1
      ∧ fakeFilesystemPC env [v0, "uniprot", uid] .read (E - o2) o2 = .bytes l2
      ∧ l1 ++ l2 = ((decodedBuffer env rp off ts).take E).drop o1 := by
  have ha := resolver_read_uniprot2 env v0 uid (o2 - o1) o1 hv hvr hlen
  have hb := resolver_read_uniprot2 env v0 uid (E - o2) o2 hv hvr hlen
  rw [hres, uinfoRead_located env st rp off ts _ _ hrp hoff hts,
    sendFromBuffer_eq_slice] at ha
  rw [hres, uinfoRead_located env st rp off ts _ _ hrp hoff hts,
    sendFromBuffer_eq_slice] at hb
  exact ⟨_, _, ha, hb, slices_concat _ o1 o2 E (le_of_lt h12) h2E⟩

/-- Witness for the amended C6 at `o1 = 1`, `o2 = 2`, `E = 8` on `testEnv`. -/
theorem read_concat_amended_witness :
    ∃ l1 l2,
      fakeFilesystemPC testEnv ["v3", "uniprot", "AAAB"] .read 1 1 = .bytes l1
      ∧ fakeFilesystemPC testEnv ["v3", "uniprot", "AAAB"] .read 6 2 = .bytes l2
      ∧ l1 ++ l2 = ((decodedBuffer testEnv "t.tar" 0 4).take 8).drop 1 := by
  exact read_concat_amended testEnv "v3" "AAAB" "t.tar" 0 4 8 1 2
    (mkFileStat testRow "AAAB") (by decide) (by decide) (by decide) (by decide)
    (by decide) (by decide) (by decide) (by decide) (by decide) (by decide)

/-- C2 evaluation on the scenario index (only version 3 of `A0A1Q1MKJ4`
exists): the explicit `_v99` lookup fails with `-2` as the claim's scenario
says, but an explicit `_v2` — no row with version exactly 2 — does NOT
return NotFound: the `max(version)` aggregate yields an all-NULL row,
`if not data` does not fire (a `sqlite3.Row` is truthy), and a stat whose
location fields are all `None` is returned. -/
theorem explicit_version_lookup_at_scenario :
    fakeFilesystem scenarioEnv "/v3/uniprot/A0A1Q1MKJ4_v99.cif" .getattr 0 0 = .err2
    ∧ fakeFilesystem scenarioEnv "/v3/uniprot/A0A1Q1MKJ4_v2.cif" .getattr 0 0
        = .stat (nullStat "A0A1Q1MKJ4")
    ∧ (nullStat "A0A1Q1MKJ4").version = none := by
  decide

/-- C3 evaluation: `getattr` of an identifier absent from the index returns
a `LocationAwareStat` (with `st_size`, `relpath`, `offset`, `version` all
`None`) rather than the NotFound sentinel `-2`, because the `max(version)`
aggregate always produces one (truthy) row. -/
theorem missing_identifier_getattr_returns_stat :
    fakeFilesystem scenarioEnv "/v3/uniprot/QQQQQQ" .getattr 0 0
        = .stat (nullStat "QQQQQQ")
    ∧ (nullStat "QQQQQQ").st_size = none
    ∧ (nullStat "QQQQQQ").relpath = none := by
  decide

/-- C5 refutation on the spec's own scenario index:
`readdir("/v3/pdb/2DOG")` yields the entry `A0A1Q1MKJ4_v3.cif`, but
`getattr` of that child path returns Python `None` — no branch of
`_fake_filesystem` handles a pdb path of depth 3 whose second component is
longer than one character — neither a stat nor `-2`. -/
theorem readdir_getattr_mismatch_at_pdb_depth3 :
    fakeFilesystem scenarioEnv "/v3/pdb/2DOG" .readdir 0 0
        = .entries ["A0A1Q1MKJ4_v3.cif"]
    ∧ fakeFilesystem scenarioEnv "/v3/pdb/2DOG/A0A1Q1MKJ4_v3.cif" .getattr 0 0
        = .retNone := by
  decide

/-- C4: `open` with any non-read-only access mode (`flags & 3 ≠ 0`: a write
or read-write bit set) returns `-errno.EACCES`, for every path, existing or
not. -/
theorem open_write_flags_denied (path : String) (flags : Nat)
    (h : Nat.land flags 3 ≠ 0) : afOpen path flags = some (-13) := by
  unfold afOpen
  rw [if_pos h]

/-- Witness for C4 at `O_WRONLY = 1` on a path that exists nowhere. -/
theorem open_write_flags_denied_witness :
    afOpen "/no/such/path" 1 = some (-13) :=
  open_write_flags_denied "/no/such/path" 1 (by decide)

/-- C10: `open` with a read-only access mode (`flags & 3 = 0`) returns
`None` (success) for every path, and `open` never returns the NotFound
sentinel `-2`: it inspects only the access-mode bits, never the resolver or
the index. -/
theorem open_readonly_succeeds (path : String) (flags : Nat) :
    (Nat.land flags 3 = 0 → afOpen path flags = none)
    ∧ afOpen path flags ≠ some (-2) := by
  constructor
  · intro h
    unfold afOpen
    rw [if_neg (fun hne => hne h)]
  · unfold afOpen
    by_cases hc : Nat.land flags 3 ≠ 0
    · rw [if_pos hc]
      intro heq
      cases heq
    · rw [if_neg hc]
      intro heq
      cases heq

/-- Witness for C10 on a syntactically unrecognized, nonexistent path. -/
theorem open_readonly_succeeds_witness :
    afOpen "/no/such/path" 0 = none ∧ afOpen "/no/such/path" 0 ≠ some (-2) :=
  ⟨(open_readonly_succeeds "/no/such/path" 0).1 (by decide),
    (open_readonly_succeeds "/no/such/path" 0).2⟩

/-- C7 counterexample: the decode-cache key equality regards two stats with
the same `uniprot_id` but different `version` as equal, so cache equality
is not determined by the pair `(uniprot_id, version)` as claimed. -/
theorem cache_key_counterexample :
    statEq statV3 statV4 = true ∧ statV3.version ≠ statV4.version := by
  decide

/-- C7 amended: decode-cache hash and equality are determined by
`uniprot_id` alone — two stats are cache-equal iff their `uniprot_id`
fields agree, and records with equal `uniprot_id` hash identically under
any ambient string hash. -/
theorem cache_key_by_uniprot_only :
    (∀ a b : LocationAwareStat, statEq a b = true ↔ a.uniprot_id = b.uniprot_id)
    ∧ ∀ (h : Option String → Nat) (a b : LocationAwareStat),
        a.uniprot_id = b.uniprot_id → statHash h a = statHash h b := by
  constructor
  · intro a b
    unfold statEq
    exact beq_iff_eq ..
  · intro h a b hab
    unfold statHash
    rw [hab]

/-- Witness for the amended C7 on the two concrete stats. -/
theorem cache_key_by_uniprot_only_witness :
    statEq statV3 statV4 = true
    ∧ statHash (fun x => (x.getD "").length) statV3
        = statHash (fun x => (x.getD "").length) statV4 :=
  ⟨(cache_key_by_uniprot_only.1 statV3 statV4).mpr (by decide),
    cache_key_by_uniprot_only.2 (fun x => (x.getD "").length) statV3 statV4 (by decide)⟩

/-- C8: the Indexer's `expanded_size` for an archive member with compressed
size at least 4: when `size ≤ 4194304` it is the little-endian 32-bit value
of the last four payload bytes (the gzip ISIZE trailer); when
`size > 4194304` it is the length of the actual gzip decompression of the
payload; and for a member lying inside the archive the payload read has
exactly `size` bytes. -/
theorem indexer_expanded_size_policy (gunzip : List Nat → List Nat)
    (archive : List Nat) (offset size : Nat) (h4 : 4 ≤ size) :
    (size ≤ 4194304 →
      memberExpandedSize gunzip archive offset size
        = leU32 (((archive.drop (offset + 512)).take size).drop (size - 4)))
    ∧ (4194304 < size →
      memberExpandedSize gunzip archive offset size
        = (gunzip ((archive.drop (offset + 512)).take size)).length)
    ∧ (offset + 512 + size ≤ archive.length →
      ((archive.drop (offset + 512)).take size).length = size) := by
  refine ⟨?_, ?_, ?_⟩
  · intro hle
    unfold memberExpandedSize
    rw [if_neg (by omega)]
    have e2 : (4 : Nat) = size - (size - 4) := by omega
    congr 1
    rw [List.drop_take, List.drop_drop, ← e2]
  · intro hgt
    unfold memberExpandedSize
    rw [if_pos hgt]
  · intro harch
    rw [List.length_take, List.length_drop]
    omega

/-- Witness for C8: a 16-byte member at offset 0 of a 532-byte archive
(ISIZE case), a minimal over-4MiB case, and the payload-length fact. -/
theorem indexer_expanded_size_policy_witness :
    memberExpandedSize (fun l => l) (List.range 532) 0 16 = leU32 [524, 525, 526, 527]
    ∧ memberExpandedSize (fun l => l) [] 0 4194305 = 0
    ∧ (((List.range 532).drop 512).take 16).length = 16 := by
  refine ⟨?_, ?_, ?_⟩
  · rw [(indexer_expanded_size_policy (fun l => l) (List.range 532) 0 16 (by decide)).1
      (by decide)]
    decide
  · rw [(indexer_expanded_size_policy (fun l => l) [] 0 4194305 (by decide)).2.1
      (by decide)]
    decide
  · exact (indexer_expanded_size_policy (fun l => l) (List.range 532) 0 16 (by decide)).2.2
      (by decide)

theorem rows_backed (files : List FileRow) (rows : List (String × Nat))
    (H : ∀ q ∈ rows, ∃ f, f ∈ files ∧ f.uniprot_id = q.1 ∧ f.version = q.2)
    (e : String) (he : e ∈ direntGenFromResult (groupMaxVersion rows)) :
    ∃ row, row ∈ files ∧ e = row.uniprot_id ++ "_v" ++ toString row.version ++ ".cif" := by
  unfold direntGenFromResult at he
  rcases List.mem_map.mp he with ⟨q, hq, rfl⟩
  rcases H q (groupMaxVersion_subset rows q hq) with ⟨f, hf, h1, h2⟩
  exact ⟨f, hf, by rw [h1, h2]⟩

/-- C9: every file-denoting directory entry produced by the taxonomy, pdb
and uniprot-bucket listings has the form `<UNIPROT_ID>_v<V>.cif` where
`(UNIPROT_ID, V)` are the identifier and version of a backing `files` row;
and on the scenario index `readdir("/v3/taxonomy/9606")` yields exactly the
entry `A0A1Q1MKJ4_v3.cif`. -/
theorem file_entries_form_and_backing (env : Env) (tid pid sub v e : String) :
    (e ∈ direntGenFromResult (getUniprotFromTaxonomy env.taxonomy env.files tid v) →
      ∃ row, row ∈ env.files
        ∧ e = row.uniprot_id ++ "_v" ++ toString row.version ++ ".cif")
    ∧ (e ∈ direntGenFromResult (getUniprotFromPdb env.pdb env.files pid v) →
      ∃ row, row ∈ env.files
        ∧ e = row.uniprot_id ++ "_v" ++ toString row.version ++ ".cif")
    ∧ (e ∈ direntGenFromResult (getUniprotFromUniprotSubstring env.files sub v) →
      ∃ row, row ∈ env.files
        ∧ e = row.uniprot_id ++ "_v" ++ toString row.version ++ ".cif")
    ∧ fakeFilesystem scenarioEnv "/v3/taxonomy/9606" .readdir 0 0
        = .entries ["A0A1Q1MKJ4_v3.cif"] := by
  refine ⟨?_, ?_, ?_, by decide⟩
  · intro he
    unfold getUniprotFromTaxonomy at he
    refine rows_backed env.files _ ?_ e he
    intro q hq
    rcases List.mem_flatMap.mp hq with ⟨t, ht, hq2⟩
    rcases List.mem_map.mp hq2 with ⟨f, hf, rfl⟩
    have hff := List.mem_filter.mp hf
    have hcond := hff.2
    simp only [Bool.and_eq_true, beq_iff_eq, decide_eq_true_eq] at hcond
    exact ⟨f, hff.1, hcond.1, rfl⟩
  · intro he
    unfold getUniprotFromPdb at he
    refine rows_backed env.files _ ?_ e he
    intro q hq
    rcases List.mem_flatMap.mp hq with ⟨t, ht, hq2⟩
    rcases List.mem_map.mp hq2 with ⟨f, hf, rfl⟩
    have hff := List.mem_filter.mp hf
    have hcond := hff.2
    simp only [Bool.and_eq_true, beq_iff_eq, decide_eq_true_eq] at hcond
    exact ⟨f, hff.1, hcond.1, rfl⟩
  · intro he
    unfold getUniprotFromUniprotSubstring at he
    refine rows_backed env.files _ ?_ e he
    intro q hq
    rcases List.mem_map.mp hq with ⟨f, hf, rfl⟩
    exact ⟨f, (List.mem_filter.mp hf).1, rfl, rfl⟩

/-- Witness for C9: the scenario taxonomy entry is backed by the scenario
`files` row. -/
theorem file_entries_form_and_backing_witness :
    ∃ row, row ∈ scenarioEnv.files
      ∧ "A0A1Q1MKJ4_v3.cif" = row.uniprot_id ++ "_v" ++ toString row.version ++ ".cif" :=
  (file_entries_form_and_backing scenarioEnv "9606" "2DOG" "KJ" "3"
    "A0A1Q1MKJ4_v3.cif").1 (by decide)
